import Mathlib

/-!
A shallow embedding of the `unsplash-rs` client core: the generic
request/response dispatch pipeline (`src/endpoint/mod.rs`), the error
taxonomy (`src/error.rs`), the query encoder (`ToQuery` blanket impl),
and the staged parameter builders for the photos endpoints
(`src/endpoint/photos/random.rs`, `src/endpoint/photos/list.rs`).

External collaborators (hyper, serde_json, serde_url_params) are modelled
as parameters or as faithful functional models of the behaviour the code
relies on; everything of the repository itself is translated from the
source.
-/

set_option autoImplicit false

namespace Unsplash

/-! ## Error model (`src/error.rs`, `failure` crate) -/

/-- `ErrorKind` from `src/error.rs`: the three error categories. -/
inductive ErrorKind where
  | Request
  | Forbidden
  | MalformedResponse
deriving DecidableEq, Repr

/-- The underlying `Fail` cause chain an `Error` wraps (via the `failure`
crate's `Context`).  Leaves are the failures the pipeline can produce:
a hyper send error, a hyper body-stream read error, a `serde_json`
decode error, or a decoded `Errors(Vec<String>)` value; `context`
models `e.context(kind)` wrapping a previous error. -/
inductive Cause where
  | hyperSend
  | hyperBody
  | jsonErr (msg : String)
  | errorsVal (msgs : List String)
  | context (kind : ErrorKind) (inner : Cause)
deriving DecidableEq, Repr

/-- `Error` from `src/error.rs`: a `Context<ErrorKind>`, i.e. a kind
together with the wrapped source cause. -/
structure Error where
  kind : ErrorKind
  source : Cause
deriving DecidableEq, Repr

/-! ## Dispatch pipeline (`src/endpoint/mod.rs`) -/

/-- HTTP methods used by the dispatch primitives. -/
inductive Method where
  | GET
  | PUT
  | POST
  | DELETE
deriving DecidableEq, Repr

/-- `StatusCode::is_success` of hyper: `200 ..= 299`. -/
def isSuccessStatus (s : Nat) : Bool :=
  200 ≤ s && s ≤ 299

/-- `StatusCode::FORBIDDEN.as_u16()`. -/
def FORBIDDEN : Nat := 403

/-- `fold` from `src/endpoint/mod.rs`: append one body chunk to the
accumulated byte vector. -/
def fold (v : List Nat) (chunk : List Nat) : List Nat :=
  v ++ chunk

/-- The body accumulation `res.into_body() ... .fold(Vec::new(), fold)`:
concatenate the stream's chunks in arrival order. -/
def bufferBody (chunks : List (List Nat)) : List Nat :=
  chunks.foldl fold []

/-- `parse_err` from `src/endpoint/mod.rs`: decode the buffered bytes as
`Errors` (a JSON list of error strings) and in BOTH cases return an
error — a decoded list is wrapped with `MalformedResponse` context, and
so is a failed decode.  `fromSliceErrors` models
`serde_json::from_slice::<Errors>`. -/
def parse_err {R : Type} (fromSliceErrors : List Nat → Except String (List String))
    (v : List Nat) : Except Error R :=
  match fromSliceErrors v with
  | .ok j => .error ⟨.MalformedResponse, .errorsVal j⟩
  | .error e => .error ⟨.MalformedResponse, .jsonErr e⟩

/-- `parse_data` from `src/endpoint/mod.rs`: decode the buffered bytes as
the expected success type `R`; a decode failure is wrapped with
`MalformedResponse` context.  `fromSlice` models
`serde_json::from_slice::<T>`. -/
def parse_data {R : Type} (fromSlice : List Nat → Except String R)
    (v : List Nat) : Except Error R :=
  match fromSlice v with
  | .ok j => .ok j
  | .error e => .error ⟨.MalformedResponse, .jsonErr e⟩

/-- Outcome of `client.request(request)` together with the response body
stream: either the send itself failed (hyper error before any response),
or a response arrived with a status code and a body stream that either
yields all its chunks (`some chunks`, in arrival order) or breaks with a
read failure (`none`). -/
inductive TransportOutcome where
  | sendFail
  | response (status : Nat) (body : Option (List (List Nat)))

/-- The inner chain of `request`'s `and_then` closure, after the status
was read: buffer the body (a chunk-read failure is mapped to a
`MalformedResponse` error), then run `parse_data` if the status is in
the success range and `parse_err` otherwise. -/
def classifyBody {R : Type} (fromSlice : List Nat → Except String R)
    (fromSliceErrors : List Nat → Except String (List String))
    (status : Nat) (body : Option (List (List Nat))) : Except Error R :=
  match body with
  | none => .error ⟨.MalformedResponse, .hyperBody⟩
  | some chunks =>
    let v := bufferBody chunks
    if isSuccessStatus status then parse_data fromSlice v else parse_err fromSliceErrors v

/-- The final `map_err` of `request`: when the status is `FORBIDDEN`,
re-tag whatever error resulted with the `Forbidden` kind, keeping the
previous error (kind and source) as the wrapped cause. -/
def retagForbidden {R : Type} (status : Nat) :
    Except Error R → Except Error R
  | .ok r => .ok r
  | .error e =>
    if status = FORBIDDEN then .error ⟨.Forbidden, .context e.kind e.source⟩
    else .error e

/-- `request` from `src/endpoint/mod.rs`, as a function of the transport
outcome: a hyper send failure is mapped to a `Request`-kind error; on a
response, classify the body and apply the forbidden re-tag. -/
def request {R : Type} (fromSlice : List Nat → Except String R)
    (fromSliceErrors : List Nat → Except String (List String)) :
    TransportOutcome → Except Error R
  | .sendFail => .error ⟨.Request, .hyperSend⟩
  | .response status body =>
    retagForbidden status (classifyBody fromSlice fromSliceErrors status body)

/-! ## Query encoder (`ToQuery` blanket impl, `serde_url_params` model) -/

/-- Upper-case hexadecimal digit. -/
def hexDigitChar (n : Nat) : Char :=
  if n < 10 then Char.ofNat (48 + n) else Char.ofNat (55 + n)

/-- UTF-8 encoding of one character, as byte values. -/
def utf8Bytes (c : Char) : List Nat :=
  let n := c.toNat
  if n < 128 then [n]
  else if n < 2048 then [192 + n / 64, 128 + n % 64]
  else if n < 65536 then [224 + n / 4096, 128 + (n / 64) % 64, 128 + n % 64]
  else [240 + n / 262144, 128 + (n / 4096) % 64, 128 + (n / 64) % 64, 128 + n % 64]

/-- Characters left untouched by percent-encoding (URL unreserved set). -/
def isUrlUnreserved (c : Char) : Bool :=
  c.isAlphanum || c = '-' || c = '_' || c = '.' || c = '~'

/-- Percent-encode one character. -/
def percentEncodeChar (c : Char) : String :=
  if isUrlUnreserved c then String.singleton c
  else String.join ((utf8Bytes c).map fun b =>
    String.mk ['%', hexDigitChar (b / 16), hexDigitChar (b % 16)])

/-- Percent-encode a string, character by character. -/
def percentEncode (s : String) : String :=
  String.join (s.data.map percentEncodeChar)

/-- Serialization of a Rust `bool` value. -/
def serializeBool (b : Bool) : String :=
  if b then "true" else "false"

/-- Serialization of a Rust `usize` value (decimal). -/
def serializeNat (n : Nat) : String :=
  toString n

/-- `Orientation` from `src/endpoint/photos/mod.rs`. -/
inductive Orientation where
  | Portrait
  | Landscape
  | Squarish
deriving DecidableEq, Repr

/-- Serde serialization of an `Orientation` variant (the variant name). -/
def Orientation.serialize : Orientation → String
  | .Portrait => "Portrait"
  | .Landscape => "Landscape"
  | .Squarish => "Squarish"

/-- `Order` from `src/endpoint/photos/mod.rs`. -/
inductive Order where
  | Latest
  | Oldest
  | Popular
deriving DecidableEq, Repr

/-- Serde serialization of an `Order` variant (the variant name). -/
def Order.serialize : Order → String
  | .Latest => "Latest"
  | .Oldest => "Oldest"
  | .Popular => "Popular"

/-- The contribution of one serde field to the serialized pair list: an
absent `Option` field is skipped, a present one contributes its key and
rendered value. -/
def optField (key : String) (v : Option String) : List (String × String) :=
  match v with
  | none => []
  | some s => [(key, s)]

/-- One serialized `key=value` pair, with the value percent-encoded. -/
def pairEnc (kv : String × String) : String :=
  kv.1 ++ "=" ++ percentEncode kv.2

/-- Join serialized pairs with `&`. -/
def joinAmp : List String → String
  | [] => ""
  | [x] => x
  | x :: y :: xs => x ++ "&" ++ joinAmp (y :: xs)

/-- Model of `serde_url_params::to_string` on a struct whose present
fields serialize, in declared order, to the given pair list. -/
def serde_url_params_to_string (fields : List (String × String)) : String :=
  joinAmp (fields.map pairEnc)

/-- The `ToQuery` blanket impl from `src/endpoint/mod.rs`: serialize to
url-params form; if the result is empty return the empty string,
otherwise prepend `?`. -/
def to_query (fields : List (String × String)) : String :=
  let s := serde_url_params_to_string fields
  if s = "" then "" else "?" ++ s

/-! ## Serialization structs (`src/endpoint/photos/random.rs`) -/

/-- `RandomSerialize` from `src/endpoint/photos/random.rs`: the
configuration value flattened out of the count-less builder stages. -/
structure RandomSerialize where
  featured : Option Bool
  username : Option String
  w : Option Nat
  h : Option Nat
  orientation : Option Orientation
  collection : Option String
  query : Option String
deriving DecidableEq, Repr

/-- Present fields of a `RandomSerialize`, in declared order, with
serde-rendered values. -/
def RandomSerialize.fields (s : RandomSerialize) : List (String × String) :=
  optField "featured" (s.featured.map serializeBool) ++
  optField "username" s.username ++
  optField "w" (s.w.map serializeNat) ++
  optField "h" (s.h.map serializeNat) ++
  optField "orientation" (s.orientation.map Orientation.serialize) ++
  optField "collection" s.collection ++
  optField "query" s.query

/-- `to_query` for a `RandomSerialize` value. -/
def RandomSerialize.to_query (s : RandomSerialize) : String :=
  Unsplash.to_query s.fields

/-- `RandomCountSerialize` from `src/endpoint/photos/random.rs`: the
configuration value flattened out of the counted builder stages; `count`
is a mandatory (non-optional) field. -/
structure RandomCountSerialize where
  featured : Option Bool
  username : Option String
  w : Option Nat
  h : Option Nat
  orientation : Option Orientation
  collection : Option String
  query : Option String
  count : Nat
deriving DecidableEq, Repr

/-- Present fields of a `RandomCountSerialize`, in declared order;
`count` is always present. -/
def RandomCountSerialize.fields (s : RandomCountSerialize) : List (String × String) :=
  optField "featured" (s.featured.map serializeBool) ++
  optField "username" s.username ++
  optField "w" (s.w.map serializeNat) ++
  optField "h" (s.h.map serializeNat) ++
  optField "orientation" (s.orientation.map Orientation.serialize) ++
  optField "collection" s.collection ++
  optField "query" s.query ++
  [("count", serializeNat s.count)]

/-- `to_query` for a `RandomCountSerialize` value. -/
def RandomCountSerialize.to_query (s : RandomCountSerialize) : String :=
  Unsplash.to_query s.fields

/-! ## The `List` builder (`src/endpoint/photos/list.rs`)

The Rust struct is named `List`; it is named `PhotosList` here because
`List` is taken by Lean's core list type. -/

/-- `List` from `src/endpoint/photos/list.rs`. -/
structure PhotosList where
  page : Option Nat := none
  per_page : Option Nat := none
  order_by : Option Order := none
deriving DecidableEq, Repr

/-- `List::page`.  The source runs `assert_eq!(0, page, "Pages start a 1,
not 0!")` and then stores the page: the assert panics (modelled as
`none`) exactly when `0 = page` is FALSE, i.e. for every non-zero
argument, and passes for `page = 0`. -/
def PhotosList.set_page (l : PhotosList) (page : Nat) : Option PhotosList :=
  if 0 = page then some { l with page := some page } else none

/-- `List::per_page`.  Same shape as `List::page`: the source's
`assert_eq!(0, per_page, ...)` panics exactly when `per_page ≠ 0`. -/
def PhotosList.set_per_page (l : PhotosList) (per_page : Nat) : Option PhotosList :=
  if 0 = per_page then some { l with per_page := some per_page } else none

/-- `List::order_by`. -/
def PhotosList.set_order_by (l : PhotosList) (order_by : Order) : PhotosList :=
  { l with order_by := some order_by }

/-- Present fields of a `List` builder (it is itself the serialized
configuration value), in declared order. -/
def PhotosList.fields (l : PhotosList) : List (String × String) :=
  optField "page" (l.page.map serializeNat) ++
  optField "per_page" (l.per_page.map serializeNat) ++
  optField "order_by" (l.order_by.map Order.serialize)

/-- `to_query` for a `List` builder value. -/
def PhotosList.to_query (l : PhotosList) : String :=
  Unsplash.to_query l.fields

/-! ## The `Random` builder family (`src/endpoint/photos/random.rs`) -/

/-- `Random`: the base builder stage. -/
structure Random where
  featured : Option Bool := none
  username : Option String := none
  w : Option Nat := none
  h : Option Nat := none
  orientation : Option Orientation := none
deriving DecidableEq, Repr

/-- `RandomCount`: counted, unrestricted stage. -/
structure RandomCount where
  rand : Random
  count : Nat
deriving DecidableEq, Repr

/-- `RandomQuery`: stage restricted by a free-text query. -/
structure RandomQuery where
  rand : Random
  query : String
deriving DecidableEq, Repr

/-- `RandomQueryCount`: counted stage restricted by a query. -/
structure RandomQueryCount where
  rand : RandomQuery
  count : Nat
deriving DecidableEq, Repr

/-- `RandomCollection`: stage restricted to a comma-joined collection
id list. -/
structure RandomCollection where
  rand : Random
  collection : String
deriving DecidableEq, Repr

/-- `RandomCollectionCount`: counted stage restricted to collections. -/
structure RandomCollectionCount where
  rand : RandomCollection
  count : Nat
deriving DecidableEq, Repr

/-- `Random::featured` (named `set_featured` to avoid clashing with the
field projection). -/
def Random.set_featured (r : Random) (feat : Bool) : Random :=
  { r with featured := some feat }

/-- `Random::username`. -/
def Random.set_username (r : Random) (username : String) : Random :=
  { r with username := some username }

/-- `Random::w`. -/
def Random.set_w (r : Random) (w : Nat) : Random :=
  { r with w := some w }

/-- `Random::h`. -/
def Random.set_h (r : Random) (h : Nat) : Random :=
  { r with h := some h }

/-- `Random::orientation`. -/
def Random.set_orientation (r : Random) (orientation : Orientation) : Random :=
  { r with orientation := some orientation }

/-- `Random::query`: take the free-text branch. -/
def Random.query (r : Random) (query : String) : RandomQuery :=
  ⟨r, query⟩

/-- `Random::collection`: take the collection branch; the iterator of
ids is comma-joined. -/
def Random.collection (r : Random) (collection : List String) : RandomCollection :=
  ⟨r, String.intercalate "," collection⟩

/-- `Random::count`: `assert_ne!(count, 0, "Cannot get 0 images!")`
panics (modelled as `none`) exactly on a zero count. -/
def Random.count (r : Random) (count : Nat) : Option RandomCount :=
  if count = 0 then none else some ⟨r, count⟩

/-- `RandomQuery::count`: same zero-count assert. -/
def RandomQuery.count (r : RandomQuery) (count : Nat) : Option RandomQueryCount :=
  if count = 0 then none else some ⟨r, count⟩

/-- `RandomCollection::count`: same zero-count assert. -/
def RandomCollection.count (r : RandomCollection) (count : Nat) :
    Option RandomCollectionCount :=
  if count = 0 then none else some ⟨r, count⟩

/-! ## Dispatch calls made by the terminal `get` operations -/

/-- `API_URL` from `src/lib.rs`. -/
def API_URL : String := "https://api.unsplash.com/"

/-- `RANDOM_URI` from `src/endpoint/photos/random.rs`. -/
def RANDOM_URI : String := API_URL ++ "photos/random"

/-- `LIST_URI` from `src/endpoint/photos/list.rs`. -/
def LIST_URI : String := API_URL ++ "photos"

/-- The success schema a dispatch expects, read off the `Item` type of
the future a `get` returns: `single` for `Photo`, `list` for
`Vec<Photo>`. -/
inductive SuccessSchema where
  | single
  | list
deriving DecidableEq, Repr

/-- The configuration value handed to `::endpoint::get` by a terminal
operation of the `Random` family. -/
inductive SerialValue where
  | plain (s : RandomSerialize)
  | counted (s : RandomCountSerialize)
deriving DecidableEq, Repr

/-- The `query` field of the dispatched configuration value. -/
def SerialValue.queryField : SerialValue → Option String
  | .plain s => s.query
  | .counted s => s.query

/-- The `collection` field of the dispatched configuration value. -/
def SerialValue.collectionField : SerialValue → Option String
  | .plain s => s.collection
  | .counted s => s.collection

/-- The query-fragment encoding of the dispatched configuration value. -/
def SerialValue.to_query : SerialValue → String
  | .plain s => s.to_query
  | .counted s => s.to_query

/-- One call into the Request Dispatcher: the configuration value, the
`Authorization` header value, the endpoint URI, the method, and the
expected success schema. -/
structure DispatchCall where
  serial : SerialValue
  auth : String
  uri : String
  method : Method
  schema : SuccessSchema
deriving DecidableEq, Repr

/-- `::endpoint::get` (`src/endpoint/mod.rs`), which is
`request(query, client, auth, uri, Method::GET)`; the schema records
the `R` type the call is instantiated at. -/
def endpoint_get (serial : SerialValue) (auth : String) (uri : String)
    (schema : SuccessSchema) : DispatchCall :=
  ⟨serial, auth, uri, .GET, schema⟩

/-- `Random::get`: flatten into a `RandomSerialize` with no collection
and no query, dispatch a GET to `RANDOM_URI` expecting one `Photo`;
the `Authorization` value is the caller's `access_key` itself. -/
def Random.get (r : Random) (access_key : String) : DispatchCall :=
  endpoint_get
    (.plain ⟨r.featured, r.username, r.w, r.h, r.orientation, none, none⟩)
    access_key RANDOM_URI .single

/-- `RandomQuery::get`: flatten with `query = Some(...)`, dispatch
expecting one `Photo`; auth is `format!("Client-ID: {}", access_key)`. -/
def RandomQuery.get (r : RandomQuery) (access_key : String) : DispatchCall :=
  endpoint_get
    (.plain ⟨r.rand.featured, r.rand.username, r.rand.w, r.rand.h,
      r.rand.orientation, none, some r.query⟩)
    ("Client-ID: " ++ access_key) RANDOM_URI .single

/-- `RandomCollection::get`: flatten with `collection = Some(...)`,
dispatch expecting one `Photo`; auth is the `Client-ID` form. -/
def RandomCollection.get (r : RandomCollection) (access_key : String) : DispatchCall :=
  endpoint_get
    (.plain ⟨r.rand.featured, r.rand.username, r.rand.w, r.rand.h,
      r.rand.orientation, some r.collection, none⟩)
    ("Client-ID: " ++ access_key) RANDOM_URI .single

/-- `RandomCount::get`: flatten into a `RandomCountSerialize`, dispatch
expecting a `Vec<Photo>`; auth is the `Client-ID` form. -/
def RandomCount.get (r : RandomCount) (access_key : String) : DispatchCall :=
  endpoint_get
    (.counted ⟨r.rand.featured, r.rand.username, r.rand.w, r.rand.h,
      r.rand.orientation, none, none, r.count⟩)
    ("Client-ID: " ++ access_key) RANDOM_URI .list

/-- `RandomQueryCount::get`: flatten with the query and the count,
dispatch expecting a `Vec<Photo>`; auth is the `Client-ID` form. -/
def RandomQueryCount.get (r : RandomQueryCount) (access_key : String) : DispatchCall :=
  endpoint_get
    (.counted ⟨r.rand.rand.featured, r.rand.rand.username, r.rand.rand.w,
      r.rand.rand.h, r.rand.rand.orientation, none, some r.rand.query, r.count⟩)
    ("Client-ID: " ++ access_key) RANDOM_URI .list

/-- `RandomCollectionCount::get`: flatten with the collection and the
count, dispatch expecting a `Vec<Photo>`; auth is the `Client-ID` form. -/
def RandomCollectionCount.get (r : RandomCollectionCount) (access_key : String) :
    DispatchCall :=
  endpoint_get
    (.counted ⟨r.rand.rand.featured, r.rand.rand.username, r.rand.rand.w,
      r.rand.rand.h, r.rand.rand.orientation, some r.rand.collection, none, r.count⟩)
    ("Client-ID: " ++ access_key) RANDOM_URI .list

/-- The union of the six builder stages of the `Random` family, for
quantifying over "every builder stage". -/
inductive Stage where
  | base (r : Random)
  | query (r : RandomQuery)
  | collection (r : RandomCollection)
  | counted (r : RandomCount)
  | queryCounted (r : RandomQueryCount)
  | collectionCounted (r : RandomCollectionCount)
deriving DecidableEq, Repr

/-- The terminal `get` of each stage. -/
def Stage.get : Stage → String → DispatchCall
  | .base r, k => Random.get r k
  | .query r, k => RandomQuery.get r k
  | .collection r, k => RandomCollection.get r k
  | .counted r, k => RandomCount.get r k
  | .queryCounted r, k => RandomQueryCount.get r k
  | .collectionCounted r, k => RandomCollectionCount.get r k

/-! ## Helper lemmas -/

/-- Re-tagging never turns an error into a success. -/
theorem retagForbidden_eq_ok {R : Type} {status : Nat} {x : Except Error R} {r : R} :
    retagForbidden status x = .ok r ↔ x = .ok r := by
  cases x with
  | ok a => simp [retagForbidden]
  | error e =>
    by_cases h : status = FORBIDDEN <;> simp [retagForbidden, h]

/-- On a non-success status the body classification ignores the success
decoder entirely and always produces a `MalformedResponse` error whose
cause is the body-stream failure, the decoded error-string list, or the
error-list decode failure. -/
theorem classifyBody_nonsuccess {R : Type} (fs : List Nat → Except String R)
    (fse : List Nat → Except String (List String))
    (status : Nat) (body : Option (List (List Nat)))
    (h : isSuccessStatus status = false) :
    classifyBody fs fse status body =
      .error ⟨.MalformedResponse,
        match body with
        | none => .hyperBody
        | some chunks =>
          match fse (bufferBody chunks) with
          | .ok msgs => .errorsVal msgs
          | .error e => .jsonErr e⟩ := by
  cases body with
  | none => rfl
  | some chunks =>
    cases hfse : fse (bufferBody chunks) <;>
      simp [classifyBody, parse_err, h, hfse]

/-- An `optField` contribution is empty exactly when the field is absent. -/
theorem optField_eq_nil {k : String} {v : Option String} :
    optField k v = [] ↔ v = none := by
  cases v <;> simp [optField]

/-- Every encoded pair contains at least the `=` separator. -/
theorem length_pairEnc_pos (kv : String × String) : 0 < (pairEnc kv).length := by
  have h : (pairEnc kv).length =
      kv.1.length + "=".length + (percentEncode kv.2).length := by
    simp [pairEnc, String.length_append]
  have h1 : "=".length = 1 := rfl
  omega

/-- Joining a nonempty list keeps at least the first element's length. -/
theorem joinAmp_cons_length (x : String) (xs : List String) :
    x.length ≤ (joinAmp (x :: xs)).length := by
  cases xs with
  | nil => simp [joinAmp]
  | cons y ys =>
    simp [joinAmp, String.length_append]
    omega

/-- The url-params string of a value with at least one present field is
nonempty. -/
theorem serde_url_params_ne_empty {l : List (String × String)} (h : l ≠ []) :
    serde_url_params_to_string l ≠ "" := by
  cases l with
  | nil => exact absurd rfl h
  | cons kv rest =>
    intro he
    have h1 : (pairEnc kv).length ≤ (joinAmp ((kv :: rest).map pairEnc)).length := by
      simpa using joinAmp_cons_length (pairEnc kv) (rest.map pairEnc)
    have h2 : 0 < (pairEnc kv).length := length_pairEnc_pos kv
    have h3 : joinAmp ((kv :: rest).map pairEnc) = "" := he
    rw [h3] at h1
    have h4 : ("" : String).length = 0 := rfl
    omega

/-- `to_query` on a value with at least one present field: the `?` plus
the `&`-joined encoded pairs. -/
theorem to_query_of_ne_nil {l : List (String × String)} (h : l ≠ []) :
    to_query l = "?" ++ joinAmp (l.map pairEnc) := by
  have hne := serde_url_params_ne_empty h
  simp only [to_query, serde_url_params_to_string] at hne ⊢
  simp [hne]

/-- A `RandomSerialize` has no present field exactly when every field is
absent. -/
theorem random_serialize_fields_eq_nil (s : RandomSerialize) :
    s.fields = [] ↔
      (s.featured = none ∧ s.username = none ∧ s.w = none ∧ s.h = none ∧
       s.orientation = none ∧ s.collection = none ∧ s.query = none) := by
  simp [RandomSerialize.fields, optField_eq_nil, Option.map_eq_none']

/-- A `List` builder has no present field exactly when every field is
absent. -/
theorem photos_list_fields_eq_nil (l : PhotosList) :
    l.fields = [] ↔ (l.page = none ∧ l.per_page = none ∧ l.order_by = none) := by
  simp [PhotosList.fields, optField_eq_nil, Option.map_eq_none']

/-! ## Claim theorems -/

/-- C1: evaluation of the zero-value guards.  The count builders reject
`0` and accept non-zero values as the claim states, but `List::page` and
`List::per_page` have the check inverted: `assert_eq!(0, page)` panics
exactly on NON-zero arguments, so `page 0` succeeds (storing page 0) and
`page 1` aborts — contradicting both the claim and the methods' own
`# Panics` documentation. -/
theorem c1_zero_guards_evaluated :
    PhotosList.set_page {} 0 = some { page := some 0 } ∧
    PhotosList.set_page {} 1 = none ∧
    PhotosList.set_per_page {} 0 = some { per_page := some 0 } ∧
    PhotosList.set_per_page {} 7 = none ∧
    Random.count {} 0 = none ∧
    Random.count {} 5 = some ⟨{}, 5⟩ ∧
    RandomQuery.count (Random.query {} "cats") 0 = none ∧
    RandomQuery.count (Random.query {} "cats") 3 = some ⟨⟨{}, "cats"⟩, 3⟩ ∧
    RandomCollection.count (Random.collection {} ["1", "2"]) 0 = none ∧
    RandomCollection.count (Random.collection {} ["1", "2"]) 3 =
      some ⟨⟨{}, "1,2"⟩, 3⟩ := by
  exact ⟨rfl, rfl, rfl, rfl, rfl, rfl, rfl, rfl, rfl, rfl⟩

/-- C5: every stage's terminal `get` flattens its accumulated optional
fields (plus the fixed restriction and/or count) into one configuration
value and dispatches it as a GET to the random-photo URI; the count-less
stages expect a single `Photo`, the counted stages a `Vec<Photo>`. -/
theorem c5_terminal_get_flattens_and_dispatches
    (r : Random) (q : RandomQuery) (c : RandomCollection) (rc : RandomCount)
    (qc : RandomQueryCount) (cc : RandomCollectionCount) (k : String) :
    Random.get r k =
      ⟨.plain ⟨r.featured, r.username, r.w, r.h, r.orientation, none, none⟩,
        k, RANDOM_URI, .GET, .single⟩ ∧
    RandomQuery.get q k =
      ⟨.plain ⟨q.rand.featured, q.rand.username, q.rand.w, q.rand.h,
        q.rand.orientation, none, some q.query⟩,
        "Client-ID: " ++ k, RANDOM_URI, .GET, .single⟩ ∧
    RandomCollection.get c k =
      ⟨.plain ⟨c.rand.featured, c.rand.username, c.rand.w, c.rand.h,
        c.rand.orientation, some c.collection, none⟩,
        "Client-ID: " ++ k, RANDOM_URI, .GET, .single⟩ ∧
    RandomCount.get rc k =
      ⟨.counted ⟨rc.rand.featured, rc.rand.username, rc.rand.w, rc.rand.h,
        rc.rand.orientation, none, none, rc.count⟩,
        "Client-ID: " ++ k, RANDOM_URI, .GET, .list⟩ ∧
    RandomQueryCount.get qc k =
      ⟨.counted ⟨qc.rand.rand.featured, qc.rand.rand.username, qc.rand.rand.w,
        qc.rand.rand.h, qc.rand.rand.orientation, none, some qc.rand.query, qc.count⟩,
        "Client-ID: " ++ k, RANDOM_URI, .GET, .list⟩ ∧
    RandomCollectionCount.get cc k =
      ⟨.counted ⟨cc.rand.rand.featured, cc.rand.rand.username, cc.rand.rand.w,
        cc.rand.rand.h, cc.rand.rand.orientation, some cc.rand.collection, none, cc.count⟩,
        "Client-ID: " ++ k, RANDOM_URI, .GET, .list⟩ := by
  exact ⟨rfl, rfl, rfl, rfl, rfl, rfl⟩

/-- C7: a hyper send failure is tagged `Request` unconditionally, while
a body-stream read failure after a transport success is tagged
`MalformedResponse` at the point of failure — never `Request` — with
the forbidden re-tag layered on top only at status 403. -/
theorem c7_transport_vs_body_failure {R : Type}
    (fs : List Nat → Except String R)
    (fse : List Nat → Except String (List String)) (status : Nat) :
    request fs fse .sendFail = .error ⟨.Request, .hyperSend⟩ ∧
    classifyBody fs fse status none = .error ⟨.MalformedResponse, .hyperBody⟩ ∧
    request fs fse (.response status none) =
      .error (if status = FORBIDDEN
        then ⟨.Forbidden, .context .MalformedResponse .hyperBody⟩
        else ⟨.MalformedResponse, .hyperBody⟩) := by
  refine ⟨rfl, rfl, ?_⟩
  by_cases h : status = FORBIDDEN <;>
    simp [request, classifyBody, retagForbidden, h]

/-- C9: scenario A — base stage with `featured(true)` and
`orientation(Landscape)`, terminated by `get` with no count, dispatches
a GET whose query fragment is exactly `?featured=true&orientation=Landscape`
and expects a single `Photo`. -/
theorem c9_scenario_featured_landscape :
    (Random.get (Random.set_orientation (Random.set_featured {} true) .Landscape)
        "KEY").serial.to_query = "?featured=true&orientation=Landscape" ∧
    (Random.get (Random.set_orientation (Random.set_featured {} true) .Landscape)
        "KEY").method = .GET ∧
    (Random.get (Random.set_orientation (Random.set_featured {} true) .Landscape)
        "KEY").schema = .single ∧
    (Random.get (Random.set_orientation (Random.set_featured {} true) .Landscape)
        "KEY").uri = RANDOM_URI := by
  exact ⟨by decide, rfl, rfl, rfl⟩

/-- C10: the base-stage terminal `Random::get` passes the caller's
access key unchanged as the `Authorization` value, while every other
terminal of the family prepends `Client-ID: `. -/
theorem c10_authorization_values
    (r : Random) (q : RandomQuery) (c : RandomCollection) (rc : RandomCount)
    (qc : RandomQueryCount) (cc : RandomCollectionCount) (k : String) :
    (Random.get r k).auth = k ∧
    (RandomQuery.get q k).auth = "Client-ID: " ++ k ∧
    (RandomCollection.get c k).auth = "Client-ID: " ++ k ∧
    (RandomCount.get rc k).auth = "Client-ID: " ++ k ∧
    (RandomQueryCount.get qc k).auth = "Client-ID: " ++ k ∧
    (RandomCollectionCount.get cc k).auth = "Client-ID: " ++ k := by
  exact ⟨rfl, rfl, rfl, rfl, rfl, rfl⟩

/-- C2: for every status outside the success range the classifier
decodes the body with the error-list schema only (the result does not
depend on the success decoder at all), and at status 403 the resulting
error — decoded error list, failed error-list decode, or broken body
stream alike — is tagged `Forbidden` with the pre-re-tag error kept as
the wrapped source. -/
theorem c2_nonsuccess_error_schema_and_forbidden_retag {R : Type}
    (fs fs2 : List Nat → Except String R)
    (fse : List Nat → Except String (List String))
    (status : Nat) (body : Option (List (List Nat)))
    (h : isSuccessStatus status = false) :
    request fs fse (.response status body) =
      request fs2 fse (.response status body) ∧
    (status = FORBIDDEN → ∃ e : Error,
      classifyBody fs fse status body = .error e ∧
      request fs fse (.response status body) =
        .error ⟨.Forbidden, .context e.kind e.source⟩) := by
  constructor
  · simp [request, classifyBody_nonsuccess fs fse status body h,
      classifyBody_nonsuccess fs2 fse status body h]
  · intro h403
    subst h403
    refine ⟨_, classifyBody_nonsuccess fs fse FORBIDDEN body h, ?_⟩
    simp [request, classifyBody_nonsuccess fs fse FORBIDDEN body h,
      retagForbidden]

/-- C2 witness: status 403, a body decoding as the one-element error
list, two different success decoders. -/
theorem c2_witness :
    isSuccessStatus 403 = false ∧
    (request (R := Nat) (fun _ => Except.error "a")
        (fun _ => Except.ok ["Not authorized"]) (.response 403 (some [[1]])) =
      request (R := Nat) (fun _ => Except.error "b")
        (fun _ => Except.ok ["Not authorized"]) (.response 403 (some [[1]])) ∧
    (403 = FORBIDDEN → ∃ e : Error,
      classifyBody (R := Nat) (fun _ => Except.error "a")
          (fun _ => Except.ok ["Not authorized"]) 403 (some [[1]]) = .error e ∧
      request (R := Nat) (fun _ => Except.error "a")
          (fun _ => Except.ok ["Not authorized"]) (.response 403 (some [[1]])) =
        .error ⟨.Forbidden, .context e.kind e.source⟩)) :=
  ⟨by decide,
    c2_nonsuccess_error_schema_and_forbidden_retag
      (fun _ => Except.error "a") (fun _ => Except.error "b")
      (fun _ => Except.ok ["Not authorized"]) 403 (some [[1]]) (by decide)⟩

/-- C3: for every status outside the success range the dispatch result
is an error, never a success, even when the error-string list decodes;
and away from 403 that error is a `MalformedResponse` carrying the
decoded list (or the decode/stream failure) as its cause. -/
theorem c3_nonsuccess_always_error {R : Type}
    (fs : List Nat → Except String R)
    (fse : List Nat → Except String (List String))
    (status : Nat) (body : Option (List (List Nat)))
    (h : isSuccessStatus status = false) :
    (∀ r : R, request fs fse (.response status body) ≠ .ok r) ∧
    (status ≠ FORBIDDEN →
      request fs fse (.response status body) =
        .error ⟨.MalformedResponse,
          match body with
          | none => .hyperBody
          | some chunks =>
            match fse (bufferBody chunks) with
            | .ok msgs => .errorsVal msgs
            | .error e => .jsonErr e⟩) := by
  constructor
  · intro r hr
    rw [show request fs fse (.response status body) =
        retagForbidden status (classifyBody fs fse status body) from rfl,
      retagForbidden_eq_ok, classifyBody_nonsuccess fs fse status body h] at hr
    exact Except.noConfusion hr
  · intro h403
    simp [request, classifyBody_nonsuccess fs fse status body h,
      retagForbidden, h403]

/-- C3 witness: status 500 with a successfully decoded error list is
still an error, tagged `MalformedResponse` and carrying the list. -/
theorem c3_witness :
    isSuccessStatus 500 = false ∧
    ((∀ r : Nat, request (fun _ => Except.error "x")
        (fun _ => Except.ok ["oops"]) (.response 500 (some [[1], [2]])) ≠ .ok r) ∧
    (500 ≠ FORBIDDEN →
      request (R := Nat) (fun _ => Except.error "x")
          (fun _ => Except.ok ["oops"]) (.response 500 (some [[1], [2]])) =
        .error ⟨.MalformedResponse,
          match some [[1], [2]] with
          | none => .hyperBody
          | some chunks =>
            match (fun _ => Except.ok ["oops"] :
                List Nat → Except String (List String)) (bufferBody chunks) with
            | .ok msgs => .errorsVal msgs
            | .error e => .jsonErr e⟩)) :=
  ⟨by decide,
    c3_nonsuccess_always_error (fun _ => Except.error "x")
      (fun _ => Except.ok ["oops"]) 500 (some [[1], [2]]) (by decide)⟩

/-- C8: a success-range status whose body fails the success-schema
decode yields a `MalformedResponse` error wrapping the decode failure,
never a success value. -/
theorem c8_success_status_decode_failure {R : Type}
    (fs : List Nat → Except String R)
    (fse : List Nat → Except String (List String))
    (status : Nat) (chunks : List (List Nat)) (msg : String)
    (hs : isSuccessStatus status = true)
    (hd : fs (bufferBody chunks) = .error msg) :
    request fs fse (.response status (some chunks)) =
      .error ⟨.MalformedResponse, .jsonErr msg⟩ ∧
    ∀ r : R, request fs fse (.response status (some chunks)) ≠ .ok r := by
  have h403 : status ≠ FORBIDDEN := by
    intro he
    rw [he] at hs
    exact absurd hs (by decide)
  have hreq : request fs fse (.response status (some chunks)) =
      .error ⟨.MalformedResponse, .jsonErr msg⟩ := by
    simp [request, classifyBody, parse_data, hs, hd, retagForbidden, h403]
  exact ⟨hreq, fun r hr => by rw [hreq] at hr; exact Except.noConfusion hr⟩

/-- C8 witness: status 200 with a decoder that rejects the body. -/
theorem c8_witness :
    isSuccessStatus 200 = true ∧
    (fun _ => Except.error "bad" : List Nat → Except String Nat)
      (bufferBody [[1, 2]]) = .error "bad" ∧
    (request (R := Nat) (fun _ => Except.error "bad")
        (fun _ => Except.ok []) (.response 200 (some [[1, 2]])) =
      .error ⟨.MalformedResponse, .jsonErr "bad"⟩ ∧
    ∀ r : Nat, request (fun _ => Except.error "bad")
        (fun _ => Except.ok []) (.response 200 (some [[1, 2]])) ≠ .ok r) :=
  ⟨by decide, rfl,
    c8_success_status_decode_failure (fun _ => Except.error "bad")
      (fun _ => Except.ok []) 200 [[1, 2]] "bad" (by decide) rfl⟩

/-- C4: a configuration value with every optional field absent encodes
to the empty string; one with at least one present field encodes to `?`
followed by one percent-encoded `key=value` pair per present field,
pairs joined by `&`, in declared field order — stated for the two
all-optional configuration shapes of the repository (`RandomSerialize`
and the `List` builder). -/
theorem c4_encode_empty_or_query_shape (s : RandomSerialize) (l : PhotosList) :
    ((s.featured = none ∧ s.username = none ∧ s.w = none ∧ s.h = none ∧
      s.orientation = none ∧ s.collection = none ∧ s.query = none) →
      s.to_query = "") ∧
    (¬(s.featured = none ∧ s.username = none ∧ s.w = none ∧ s.h = none ∧
      s.orientation = none ∧ s.collection = none ∧ s.query = none) →
      s.to_query = "?" ++ joinAmp (s.fields.map pairEnc)) ∧
    ((l.page = none ∧ l.per_page = none ∧ l.order_by = none) →
      l.to_query = "") ∧
    (¬(l.page = none ∧ l.per_page = none ∧ l.order_by = none) →
      l.to_query = "?" ++ joinAmp (l.fields.map pairEnc)) := by
  refine ⟨?_, ?_, ?_, ?_⟩
  · intro hall
    have hnil : s.fields = [] := (random_serialize_fields_eq_nil s).mpr hall
    simp [RandomSerialize.to_query, hnil, to_query, serde_url_params_to_string,
      joinAmp]
  · intro hne
    have hf : s.fields ≠ [] := fun hnil =>
      hne ((random_serialize_fields_eq_nil s).mp hnil)
    exact to_query_of_ne_nil hf
  · intro hall
    have hnil : l.fields = [] := (photos_list_fields_eq_nil l).mpr hall
    simp [PhotosList.to_query, hnil, to_query, serde_url_params_to_string,
      joinAmp]
  · intro hne
    have hf : l.fields ≠ [] := fun hnil =>
      hne ((photos_list_fields_eq_nil l).mp hnil)
    exact to_query_of_ne_nil hf

/-- C4 witness: an all-absent value encodes to the empty string and a
one-field value to the `?`-prefixed joined pairs. -/
theorem c4_witness :
    RandomSerialize.to_query ⟨none, none, none, none, none, none, none⟩ = "" ∧
    RandomSerialize.to_query ⟨some true, none, none, none, none, none, none⟩ =
      "?" ++ joinAmp ((RandomSerialize.fields
        ⟨some true, none, none, none, none, none, none⟩).map pairEnc) ∧
    PhotosList.to_query ⟨none, none, none⟩ = "" ∧
    PhotosList.to_query ⟨some 1, none, none⟩ =
      "?" ++ joinAmp ((PhotosList.fields ⟨some 1, none, none⟩).map pairEnc) :=
  ⟨(c4_encode_empty_or_query_shape ⟨none, none, none, none, none, none, none⟩
      ⟨none, none, none⟩).1 (by decide),
   (c4_encode_empty_or_query_shape ⟨some true, none, none, none, none, none, none⟩
      ⟨none, none, none⟩).2.1 (by decide),
   (c4_encode_empty_or_query_shape ⟨none, none, none, none, none, none, none⟩
      ⟨none, none, none⟩).2.2.1 (by decide),
   (c4_encode_empty_or_query_shape ⟨none, none, none, none, none, none, none⟩
      ⟨some 1, none, none⟩).2.2.2 (by decide)⟩

/-- C6: fixing a free-text query and then a count flattens to exactly
the base fields plus the query and the count (the same field set as the
two-step query-then-count order produces), and no terminal `get` of any
stage ever dispatches a configuration value with both the query field
and the collection field present. -/
theorem c6_query_count_flatten_and_exclusivity
    (r : Random) (qs : String) (n : Nat) (k : String) (st : Stage) :
    (∀ qc : RandomQueryCount, (Random.query r qs).count n = some qc →
      (qc.get k).serial =
        .counted ⟨r.featured, r.username, r.w, r.h, r.orientation,
          none, some qs, n⟩) ∧
    ((st.get k).serial.queryField = none ∨
     (st.get k).serial.collectionField = none) := by
  constructor
  · intro qc hqc
    by_cases h : n = 0
    · simp [RandomQuery.count, Random.query, h] at hqc
    · simp [RandomQuery.count, Random.query, h] at hqc
      subst hqc
      rfl
  · cases st with
    | base r0 => exact Or.inl rfl
    | query r0 => exact Or.inr rfl
    | collection r0 => exact Or.inl rfl
    | counted r0 => exact Or.inl rfl
    | queryCounted r0 => exact Or.inr rfl
    | collectionCounted r0 => exact Or.inl rfl

/-- C6 witness: `query("cats")` then `count(3)` flattens to the query
and the count; the base stage has no query field. -/
theorem c6_witness :
    (Random.query {} "cats").count 3 = some ⟨⟨{}, "cats"⟩, 3⟩ ∧
    (RandomQueryCount.get ⟨⟨{}, "cats"⟩, 3⟩ "K").serial =
      .counted ⟨none, none, none, none, none, none, some "cats", 3⟩ ∧
    (((Stage.base {}).get "K").serial.queryField = none ∨
     ((Stage.base {}).get "K").serial.collectionField = none) :=
  ⟨rfl,
   (c6_query_count_flatten_and_exclusivity {} "cats" 3 "K" (.base {})).1
     ⟨⟨{}, "cats"⟩, 3⟩ rfl,
   (c6_query_count_flatten_and_exclusivity {} "cats" 3 "K" (.base {})).2⟩

end Unsplash
